import Mathlib

/-!
Verification of the chapter-navigation state machine of the 3D-storytelling
front end (`src/chapters/chapter-navigation.js`, the id-keyed, highlight-aware
implementation that the design document treats as canonical).

The JavaScript module is shallowly embedded: the DOM surfaces it mutates, the
persisted URL parameter, the timer handle and the commands it sends to the
map/marker collaborators are gathered into one explicit state record
(`NavState`); every navigation operation becomes a function on that record.
JavaScript numbers reached by this module are NaN or exact decimal values, so
they are embedded as `JSNum` (NaN, or an integer numerator over a positive
denominator) with the JS arithmetic and strict-equality operators made
explicit; floating-point rounding is not modelled — the decimal fragment is
embedded exactly, which agrees with JS on the integers and NaN this module
actually computes with.  Operations that can throw a `TypeError`
(destructuring `story.chapters[i]` when `i` is not a valid index) return
`Option NavState`, `none` meaning an exception escaped.

Collaborator modules that are not part of the navigation source
(`utils/params.js`, `utils/ui.js`, `utils/cesium.js`, `utils/create-markers.js`,
`utils/svg.js`) are modelled from the design document's collaborator contracts;
each such definition carries a doc comment saying so.
-/

namespace ChapterNav

/-- Geographic coordinates of a chapter or of the story overview.  The
navigation module only forwards them to the camera/highlight collaborators
and never computes with them, so their numeric type is opaque here and an
integer pair stands in for it. -/
structure Coords where
  lat : ℤ
  lng : ℤ
deriving DecidableEq, Repr

/-- Camera options attached to a chapter or to the story properties
(`cameraOptions.pitch`, `cameraOptions.heading`); roll is implicit.  Like the
coordinates, these are forwarded, never computed with. -/
structure CameraOptions where
  pitch : ℤ
  heading : ℤ
deriving DecidableEq, Repr

/-- One chapter record of the chapter store (`story.chapters[i]`), with the
fields the navigation module reads. -/
structure Chapter where
  id : String
  title : String
  content : String
  date : String
  place : String
  imageUrl : String
  imageCredit : String
  coords : Coords
  cameraOptions : CameraOptions
deriving DecidableEq, Repr

/-- The story-level record (`story.properties`), with the fields the
navigation module reads. -/
structure StoryProperties where
  title : String
  description : String
  createdBy : String
  date : String
  place : String
  imageUrl : String
  imageCredit : String
  coords : Coords
  cameraOptions : CameraOptions
deriving DecidableEq, Repr

/-- The `story` object imported from `main.js`: an ordered chapter sequence
plus one properties record, read-only for the navigation module. -/
structure Story where
  properties : StoryProperties
  chapters : List Chapter
deriving DecidableEq, Repr

/-- A JavaScript number as it occurs in this module: NaN, or the exact
decimal value `n / d` with `d` positive (every constructor in this file
produces `d` of the form `10 ^ k`, and `d = 1` on every path the module's own
arithmetic takes).  Infinities never arise from the arithmetic the module
performs on parsed parameters and list lengths, so they are not modelled. -/
inductive JSNum where
  | nan : JSNum
  | num : ℤ → ℕ → JSNum
deriving DecidableEq, Repr

namespace JSNum

/-- The integer JS number `n`. -/
def int (n : ℤ) : JSNum := num n 1

/-- JS `+` on numbers: NaN is absorbing; on values, exact fraction
addition. -/
def add : JSNum → JSNum → JSNum
  | nan, _ => nan
  | _, nan => nan
  | num a b, num c d => num (a * d + c * b) (b * d)

/-- JS `-` on numbers: NaN is absorbing; on values, exact fraction
subtraction. -/
def sub : JSNum → JSNum → JSNum
  | nan, _ => nan
  | _, nan => nan
  | num a b, num c d => num (a * d - c * b) (b * d)

/-- JS `<` on numbers: any comparison with NaN is false; on values, fraction
comparison by cross-multiplication (denominators are positive). -/
def lt : JSNum → JSNum → Bool
  | num a b, num c d => decide (a * d < c * b)
  | _, _ => false

/-- JS `>=` on numbers: any comparison with NaN is false. -/
def ge : JSNum → JSNum → Bool
  | num a b, num c d => decide (c * b ≤ a * d)
  | _, _ => false

/-- JS strict equality `===` on numbers: `NaN === x` is false for every `x`;
on values, numeric (not representational) equality. -/
def eqq : JSNum → JSNum → Bool
  | num a b, num c d => decide (a * d = c * b)
  | _, _ => false

/-- Rendering of a JS number into template-literal text.  It agrees with JS
for NaN and integers, the only values this module ever renders. -/
def repr : JSNum → String
  | nan => "NaN"
  | num n d => if d = 1 then toString n else toString n ++ "/" ++ toString d

end JSNum

/-- Digit-block value: `some` of the base-10 value when the character list is
nonempty and all digits, otherwise `none`. -/
def digitsVal (cs : List Char) : Option ℕ :=
  if cs.isEmpty then none
  else
    cs.foldl
      (fun acc c =>
        match acc with
        | none => none
        | some a => if c.isDigit then some (a * 10 + (c.toNat - 48)) else none)
      (some 0)

/-- Value of an unsigned decimal literal as a numerator/denominator pair:
digits with at most one `.`, at least one digit overall (so `"5."`, `".5"`
parse and `"."`, `"1.2.3"` do not).  Trailing zeros of the fractional block
are stripped first, so different spellings of one decimal value share one
representation (as JS numbers, being IEEE values, compare by value). -/
def decimalVal (cs : List Char) : Option (ℕ × ℕ) :=
  match cs.splitOn '.' with
  | [ip] => (digitsVal ip).map fun n => (n, 1)
  | [ip, fp] =>
      if ip.isEmpty && fp.isEmpty then none
      else
        let fp' := ((fp.reverse.dropWhile fun c => c = '0')).reverse
        do
          let iv ← if ip.isEmpty then pure 0 else digitsVal ip
          let fv ← if fp'.isEmpty then pure 0 else digitsVal fp'
          pure (iv * 10 ^ fp'.length + fv, 10 ^ fp'.length)
  | _ => none

/-- Whitespace trimming on both ends of a character list. -/
def trimChars (cs : List Char) : List Char :=
  ((cs.dropWhile Char.isWhitespace).reverse.dropWhile Char.isWhitespace).reverse

/-- JS `Number(s)` on a string, on the fragment reachable here: surrounding
whitespace is trimmed, the empty (or all-whitespace) string is 0, an optional
sign followed by a decimal literal gives its value, and every other string is
NaN.  Hexadecimal, exponent and `Infinity` forms are outside the modelled
fragment (chapter ids and hand-edited numeric parameters are plain decimal
strings). -/
def jsNumberOfString (s : String) : JSNum :=
  match trimChars s.data with
  | [] => JSNum.int 0
  | t =>
      let neg := t.headD ' ' = '-'
      let body := if neg ∨ t.headD ' ' = '+' then t.tail else t
      match decimalVal body with
      | some (n, d) => JSNum.num (if neg then -(n : ℤ) else (n : ℤ)) d
      | none => JSNum.nan

/-- JS `Number(params.get("chapterId"))`: `URLSearchParams.get` yields `null`
when the parameter is absent and `Number(null)` is 0; a present value is a
string and is coerced by `Number`. -/
def jsNumberOfParam : Option String → JSNum
  | none => JSNum.int 0
  | some s => jsNumberOfString s

/-- JS indexing `l[j]` followed by destructuring: `some` the element when `j`
is an integer-valued number with `0 <= j < length` (JS canonicalizes the
numeric key, so `l[2.0]` is `l[2]`), `none` (the destructuring throws a
`TypeError` on `undefined`) otherwise — including NaN, fractional and
negative indices. -/
def jsListAt (l : List Chapter) : JSNum → Option Chapter
  | JSNum.nan => none
  | JSNum.num n d =>
      if (d : ℤ) ∣ n ∧ 0 ≤ n ∧ 0 < d then l[(n / (d : ℤ)).toNat]? else none

/-- State of the autoplay button's glyph (`loadSvg("round-play-button")` /
`loadSvg("round-pause-button")`; the SVG loader is a collaborator modelled
from the design document's icon/asset-loader contract). -/
inductive Icon where
  | play : Icon
  | pause : Icon
deriving DecidableEq, Repr

/-- Argument of `activateNavigationElement`. -/
inductive NavName where
  | intro : NavName
  | details : NavName
deriving DecidableEq, Repr

/-- An angle forwarded to the camera collaborator: either the raw configured
value or `Cesium.Math.toRadians` of it.  The conversion itself belongs to the
external Cesium SDK and is recorded symbolically. -/
inductive AngleExpr where
  | raw : ℤ → AngleExpr
  | radiansOf : ℤ → AngleExpr
deriving DecidableEq, Repr

/-- Arguments of the most recent `performFlyTo` call.  `performFlyTo` lives in
`utils/cesium.js`, which is not part of the navigation source; modelled from
the design document's camera collaborator contract as fire-and-forget, so only
the call's arguments are recorded. -/
structure FlyCmd where
  coords : Coords
  duration : ℕ
  roll : AngleExpr
  pitch : AngleExpr
  heading : AngleExpr
deriving DecidableEq, Repr

/-- The time in milliseconds between each chapter progression. -/
def TIME_PER_CHAPTER : ℕ := 3000

/-- The radius size of the highlighted area. -/
def HIGHLIGHT_RADIUS : ℕ := 250

/-- The mutable environment of the module: the persisted `chapterId` URL
parameter, the module-level timer handle, the DOM surfaces the module writes,
and the last commands sent to the marker/camera/highlight collaborators.

`chapterParam` models the backing store of `getParams`/`setParams`
(`utils/params.js`, not part of the navigation source; modelled from the
design document's param-codec contract: get/set/clear one named string
parameter).  `setParams("chapterId", null)` clears it.

`intervalId` holds `some TIME_PER_CHAPTER` while the repeating autoplay timer
is registered and `none` otherwise; browser timer handles are positive
integers, so the JS truthiness test `if (intervalId)` coincides with
non-nullness and is modelled as `isSome`. -/
structure NavState where
  chapterParam : Option String
  selectedMarker : Option JSNum
  introActive : Bool
  detailActive : Bool
  storyTitle : String
  headline : String
  description : String
  dateText : String
  placeText : String
  heroSrc : String
  attribution : String
  storyIntroAttribution : String
  storyIntroAuthor : String
  storyIntroDate : String
  chapterIndexText : String
  forwardDisabled : Bool
  autoplayIcon : Icon
  intervalId : Option ℕ
  shader : Option (Coords × ℕ)
  lastFlyTo : Option FlyCmd
deriving DecidableEq, Repr

/-- The argument of `updateChapterContent`: a chapter record or the
story-properties record. -/
inductive ChapterData where
  | chapter : Chapter → ChapterData
  | props : StoryProperties → ChapterData
deriving DecidableEq, Repr

namespace ChapterData

/-- JS property access `chapterData.title` (present on both shapes). -/
def title : ChapterData → String
  | chapter c => c.title
  | props p => p.title

/-- JS property access `chapterData.content`; the properties record has no
`content` field, so there it is `undefined` (rendered as text this would be
the string "undefined"; that combination is unreachable from the module's
call sites). -/
def content : ChapterData → String
  | chapter c => c.content
  | props _ => "undefined"

/-- JS property access `chapterData.date` (present on both shapes). -/
def date : ChapterData → String
  | chapter c => c.date
  | props p => p.date

/-- JS property access `chapterData.place` (present on both shapes). -/
def place : ChapterData → String
  | chapter c => c.place
  | props p => p.place

/-- JS property access `chapterData.imageUrl` (present on both shapes). -/
def imageUrl : ChapterData → String
  | chapter c => c.imageUrl
  | props p => p.imageUrl

/-- JS property access `chapterData.imageCredit` (present on both shapes). -/
def imageCredit : ChapterData → String
  | chapter c => c.imageCredit
  | props p => p.imageCredit

end ChapterData

/-- Source `getCurrentChapterIndex`: reads the persisted `chapterId` parameter and
coerces it with `Number`. -/
def getCurrentChapterIndex (st : NavState) : JSNum :=
  jsNumberOfParam st.chapterParam

/-- Source `activateNavigationElement(navName)`: toggles the `active` class on the
intro and detail navigation panes. -/
def activateNavigationElement (st : NavState) (navName : NavName) : NavState :=
  { st with
    introActive := navName = NavName.intro
    detailActive := navName = NavName.details }

/-- Source `updateDetailsNavigation()`: recomputes the chapter-index readout from the
persisted parameter and disables the forward button exactly when
`chapterIndex === story.chapters.length` for `chapterIndex` the current index
plus one. -/
def updateDetailsNavigation (story : Story) (st : NavState) : NavState :=
  let chapterIndex := (getCurrentChapterIndex st).add (JSNum.int 1)
  let st :=
    { st with
      chapterIndexText :=
        chapterIndex.repr ++ " / " ++ toString story.chapters.length }
  if chapterIndex.eqq (JSNum.int (story.chapters.length : ℤ)) then
    { st with forwardDisabled := true }
  else
    { st with forwardDisabled := false }

/-- Source `updateChapterIndexAndNavigation()`: recomputes the chapter-index readout
and sets `forwardButton.disabled = chapterIndex + 1 === story.chapters.length`
from a fresh read of the current index. -/
def updateChapterIndexAndNavigation (story : Story) (st : NavState) : NavState :=
  let chapterIndex := getCurrentChapterIndex st
  let st :=
    { st with
      chapterIndexText :=
        (chapterIndex.add (JSNum.int 1)).repr ++ " / " ++
          toString story.chapters.length }
  { st with
    forwardDisabled :=
      (chapterIndex.add (JSNum.int 1)).eqq (JSNum.int (story.chapters.length : ℤ)) }

/-- Source `updateChapterContent(chapterData, isIntro)`: renders all text surfaces
(with the intro/detail field-mapping rules of the source), the hero image and
the attributions, then recomputes the index readout and forward-button state.
`setTextContent` is from `utils/ui.js`, not part of the navigation source;
modelled from the design document's DOM text-setter contract as a plain field
write. -/
def updateChapterContent (story : Story) (chapterData : ChapterData)
    (isIntro : Bool) (st : NavState) : NavState :=
  let st := updateDetailsNavigation story st
  let st :=
    { st with
      storyTitle := if isIntro then "" else chapterData.title
      headline := if isIntro then story.properties.title else chapterData.title
      description :=
        if isIntro then story.properties.description else chapterData.content
      dateText := if isIntro then "" else chapterData.date
      placeText := chapterData.place
      heroSrc := chapterData.imageUrl }
  let imageCredit :=
    if chapterData.imageCredit ≠ "" then
      "Image credit: " ++ chapterData.imageCredit
    else ""
  let st :=
    { st with
      storyIntroAttribution := if isIntro then imageCredit else ""
      attribution := if isIntro then "" else imageCredit }
  let st :=
    { st with
      storyIntroAuthor :=
        if isIntro then "by: " ++ story.properties.createdBy else ""
      storyIntroDate := if isIntro then story.properties.date else "" }
  updateChapterIndexAndNavigation story st

/-- Source `updateChapter(chapterIndex)`: destructures `story.chapters[chapterIndex]`
(throwing, i.e. `none`, when the index is not valid), then selects the marker,
persists the chapter's id, re-renders the detail content, activates the detail
pane, creates the highlight shader and flies the camera.  `setSelectedMarker`
(`utils/create-markers.js`) and `createCustomRadiusShader` (`utils/cesium.js`)
are collaborators modelled from the design document's contracts as recorded
state. -/
def updateChapter (story : Story) (chapterIndex : JSNum) (st : NavState) :
    Option NavState :=
  match jsListAt story.chapters chapterIndex with
  | none => none
  | some ch =>
      let st := { st with selectedMarker := some chapterIndex }
      let st := { st with chapterParam := some ch.id }
      let st := updateChapterContent story (ChapterData.chapter ch) false st
      let st := activateNavigationElement st NavName.details
      let st := { st with shader := some (ch.coords, HIGHLIGHT_RADIUS) }
      some
        { st with
          lastFlyTo :=
            some
              { coords := ch.coords
                duration := 2
                roll := AngleExpr.raw 0
                pitch := AngleExpr.radiansOf ch.cameraOptions.pitch
                heading := AngleExpr.raw ch.cameraOptions.heading } }

/-- Source `resetToIntro()`: clears the chapter parameter, deselects the marker,
re-renders the intro content, activates the intro pane, removes the highlight
shader and flies the camera back to the overview position. -/
def resetToIntro (story : Story) (st : NavState) : NavState :=
  let st := { st with chapterParam := none }
  let st := { st with selectedMarker := none }
  let st := updateChapterContent story (ChapterData.props story.properties) true st
  let st := activateNavigationElement st NavName.intro
  let st := { st with shader := none }
  { st with
    lastFlyTo :=
      some
        { coords := story.properties.coords
          duration := 1
          roll := AngleExpr.raw 0
          pitch := AngleExpr.radiansOf story.properties.cameraOptions.pitch
          heading := AngleExpr.raw story.properties.cameraOptions.heading } }

/-- Source `setNextChapter()`: computes the current index plus one and updates the
chapter when that is `<` the chapter count, else does nothing. -/
def setNextChapter (story : Story) (st : NavState) : Option NavState :=
  let newChapterIndex := (getCurrentChapterIndex st).add (JSNum.int 1)
  if newChapterIndex.lt (JSNum.int (story.chapters.length : ℤ)) then
    updateChapter story newChapterIndex st
  else
    some st

/-- Source `setPreviousChapter()`: computes the current index minus one and updates
the chapter when that is `>= 0`, else resets to the intro. -/
def setPreviousChapter (story : Story) (st : NavState) : Option NavState :=
  let newChapterIndex := (getCurrentChapterIndex st).sub (JSNum.int 1)
  if newChapterIndex.ge (JSNum.int 0) then
    updateChapter story newChapterIndex st
  else
    some (resetToIntro story st)

/-- Source `stopAutoplay()`: restores the play icon, clears the timeout and nulls the
module-level handle. -/
def stopAutoplay (st : NavState) : NavState :=
  { st with autoplayIcon := Icon.play, intervalId := none }

/-- Source `setNextAutoplayStep()`: the autoplay tick — advances one chapter, then
stops the autoplay when `getCurrentChapterIndex() === story.chapters.length - 1`. -/
def setNextAutoplayStep (story : Story) (st : NavState) : Option NavState := do
  let st ← setNextChapter story st
  if (getCurrentChapterIndex st).eqq (JSNum.int ((story.chapters.length : ℤ) - 1)) then
    pure (stopAutoplay st)
  else
    pure st

/-- Source `autoplayClickHandler()`: stops the timer when the handle is set
(`if (intervalId)`), otherwise registers the repeating
`setInterval(setNextAutoplayStep, TIME_PER_CHAPTER)` timer and shows the
pause icon. -/
def autoplayClickHandler (st : NavState) : NavState :=
  if st.intervalId.isSome then
    stopAutoplay st
  else
    { st with intervalId := some TIME_PER_CHAPTER, autoplayIcon := Icon.pause }

/-- One occurrence of the browser firing the registered autoplay interval: a
cancelled (`none`) handle never fires, so the tick is the identity then;
otherwise the tick runs `setNextAutoplayStep`. -/
def autoplayTick (story : Story) (st : NavState) : Option NavState :=
  if st.intervalId.isSome then setNextAutoplayStep story st else some st

/-- The forward-button click listener registered by `initChapterNavigation`:
`setNextChapter(); stopAutoplay();`. -/
def forwardClick (story : Story) (st : NavState) : Option NavState := do
  let st ← setNextChapter story st
  pure (stopAutoplay st)

/-- The back-button click listener registered by `initChapterNavigation`:
`setPreviousChapter(); stopAutoplay();`. -/
def backClick (story : Story) (st : NavState) : Option NavState := do
  let st ← setPreviousChapter story st
  pure (stopAutoplay st)

/-- The start-button click listener registered by `initChapterNavigation`:
`activateNavigationElement("details"); updateChapter(0);`. -/
def startClick (story : Story) (st : NavState) : Option NavState :=
  updateChapter story (JSNum.int 0) (activateNavigationElement st NavName.details)

/-- Source `initChapterNavigation()` minus the listener registration: resolves the
persisted parameter against the chapter ids (strict string equality), then
activates the matching pane and renders the matched chapter or the intro. -/
def initChapterNavigation (story : Story) (st : NavState) : NavState :=
  let chapterData :=
    match st.chapterParam with
    | none => none
    | some p => story.chapters.find? fun ch => ch.id = p
  match chapterData with
  | some ch =>
      let st := activateNavigationElement st NavName.details
      updateChapterContent story (ChapterData.chapter ch) false st
  | none =>
      let st := activateNavigationElement st NavName.intro
      updateChapterContent story (ChapterData.props story.properties) true st

/-- Whether a JS number is a valid index into the chapter store (so that
`story.chapters[j]` is an actual chapter). -/
def isValidChapterIndex (story : Story) (j : JSNum) : Bool :=
  (jsListAt story.chapters j).isSome

/-- Concrete coordinates for witness evaluation. -/
def sampleCoords : Coords := ⟨48, 11⟩

/-- Concrete camera options for witness evaluation. -/
def sampleCamera : CameraOptions := ⟨-30, 90⟩

/-- A chapter record with a given id and title, for witness evaluation. -/
def sampleChapter (i : String) (t : String) : Chapter :=
  ⟨i, t, "content", "2024", "place", "img.jpg", "credit", sampleCoords, sampleCamera⟩

/-- Story-properties record for witness evaluation. -/
def sampleProperties : StoryProperties :=
  ⟨"Story", "about", "author", "2024", "overview", "hero.jpg", "credit",
    sampleCoords, sampleCamera⟩

/-- A three-chapter story whose ids are the decimal spellings of the chapter
positions, as the upstream story editor assigns them. -/
def sampleStory : Story :=
  ⟨sampleProperties,
    [sampleChapter "0" "A", sampleChapter "1" "B", sampleChapter "2" "C"]⟩

/-- The page environment before any navigation: no persisted parameter, no
timer, blank surfaces. -/
def initialState : NavState :=
  { chapterParam := none, selectedMarker := none, introActive := true,
    detailActive := false, storyTitle := "", headline := "", description := "",
    dateText := "", placeText := "", heroSrc := "", attribution := "",
    storyIntroAttribution := "", storyIntroAuthor := "", storyIntroDate := "",
    chapterIndexText := "", forwardDisabled := false, autoplayIcon := Icon.play,
    intervalId := none, shader := none, lastFlyTo := none }

/-- A state whose persisted parameter is chapter 0's id. -/
def stateAtChapter0 : NavState := { initialState with chapterParam := some "0" }

/-- A state whose persisted parameter is chapter 1's id. -/
def stateAtChapter1 : NavState := { initialState with chapterParam := some "1" }

/-- A state whose persisted parameter is chapter 2's id (the last chapter of
`sampleStory`). -/
def stateAtChapter2 : NavState := { initialState with chapterParam := some "2" }

/-- A state at chapter 1 with the autoplay timer running. -/
def statePlayingAt1 : NavState :=
  { stateAtChapter1 with
    intervalId := some TIME_PER_CHAPTER
    autoplayIcon := Icon.pause }

/-- A state whose persisted parameter is a string `Number` cannot coerce. -/
def stateBadParam : NavState :=
  { initialState with chapterParam := some "banana" }

/- Projection lemmas: the render helpers never touch the persisted parameter
or the timer handle. -/

@[simp]
theorem updateDetailsNavigation_chapterParam (story : Story) (st : NavState) :
    (updateDetailsNavigation story st).chapterParam = st.chapterParam := by
  simp only [updateDetailsNavigation]
  split <;> rfl

@[simp]
theorem updateDetailsNavigation_intervalId (story : Story) (st : NavState) :
    (updateDetailsNavigation story st).intervalId = st.intervalId := by
  simp only [updateDetailsNavigation]
  split <;> rfl

@[simp]
theorem updateChapterIndexAndNavigation_chapterParam (story : Story) (st : NavState) :
    (updateChapterIndexAndNavigation story st).chapterParam = st.chapterParam := rfl

@[simp]
theorem updateChapterIndexAndNavigation_intervalId (story : Story) (st : NavState) :
    (updateChapterIndexAndNavigation story st).intervalId = st.intervalId := rfl

@[simp]
theorem updateChapterContent_chapterParam (story : Story) (cd : ChapterData)
    (isIntro : Bool) (st : NavState) :
    (updateChapterContent story cd isIntro st).chapterParam = st.chapterParam := by
  simp [updateChapterContent]

@[simp]
theorem updateChapterContent_intervalId (story : Story) (cd : ChapterData)
    (isIntro : Bool) (st : NavState) :
    (updateChapterContent story cd isIntro st).intervalId = st.intervalId := by
  simp [updateChapterContent]

@[simp]
theorem activateNavigationElement_chapterParam (st : NavState) (n : NavName) :
    (activateNavigationElement st n).chapterParam = st.chapterParam := rfl

@[simp]
theorem activateNavigationElement_intervalId (st : NavState) (n : NavName) :
    (activateNavigationElement st n).intervalId = st.intervalId := rfl

@[simp]
theorem stopAutoplay_chapterParam (st : NavState) :
    (stopAutoplay st).chapterParam = st.chapterParam := rfl

@[simp]
theorem resetToIntro_chapterParam (story : Story) (st : NavState) :
    (resetToIntro story st).chapterParam = none := by
  simp [resetToIntro]

/-- Indexing a list with the integer JS number `i` inside the bounds yields
the `i`-th element. -/
theorem jsListAt_int {l : List Chapter} {i : ℕ} (hi : i < l.length) :
    jsListAt l (JSNum.int i) = some (l.get ⟨i, hi⟩) := by
  simp only [jsListAt, JSNum.int]
  rw [if_pos]
  · simp [Int.ediv_one, List.getElem?_eq_getElem hi]
  · exact ⟨one_dvd _, Int.natCast_nonneg i, Nat.one_pos⟩

/-- Successful `updateChapter`: when the index is valid, the call returns a
state whose persisted parameter is the selected chapter's id and whose timer
handle is untouched. -/
theorem updateChapter_some {story : Story} {j : JSNum} {ch : Chapter}
    (st : NavState) (h : jsListAt story.chapters j = some ch) :
    ∃ st', updateChapter story j st = some st' ∧
      st'.chapterParam = some ch.id ∧ st'.intervalId = st.intervalId := by
  simp only [updateChapter, h]
  exact ⟨_, rfl, by simp, by simp⟩

/-- C1: the resolution contract fails on the code.  With no `chapterId`
parameter persisted (and a nonempty chapter store), `getCurrentChapterIndex`
returns `Number(null) = 0`, which is a valid chapter index — the index of
chapter 0 — and not a distinguished "no current chapter" (intro) result. -/
theorem unset_param_resolves_to_valid_chapter_zero :
    getCurrentChapterIndex initialState = JSNum.int 0 ∧
    isValidChapterIndex sampleStory (getCurrentChapterIndex initialState) = true ∧
    jsListAt sampleStory.chapters (getCurrentChapterIndex initialState) =
      some (sampleChapter "0" "A") := by
  decide

/-- C2: for every valid index `i`, when chapter `i`'s id coerces to the
number `i` (the id assignment of the upstream chapter store), `updateChapter
story i` succeeds and a subsequent `getCurrentChapterIndex` read returns
`i`. -/
theorem updateChapter_then_read_roundtrip (story : Story) (st : NavState)
    (i : ℕ) (hi : i < story.chapters.length)
    (hid : jsNumberOfString (story.chapters.get ⟨i, hi⟩).id = JSNum.int i) :
    ∃ st', updateChapter story (JSNum.int i) st = some st' ∧
      getCurrentChapterIndex st' = JSNum.int i := by
  obtain ⟨st', hst, hparam, -⟩ := updateChapter_some st (jsListAt_int hi)
  refine ⟨st', hst, ?_⟩
  show jsNumberOfParam st'.chapterParam = JSNum.int i
  rw [hparam]
  exact hid

/-- Witness for C2 at `sampleStory`, index 1. -/
theorem updateChapter_then_read_roundtrip_witness :
    (1 < sampleStory.chapters.length ∧
      jsNumberOfString (sampleStory.chapters.get ⟨1, by decide⟩).id = JSNum.int 1) ∧
    ∃ st', updateChapter sampleStory (JSNum.int 1) initialState = some st' ∧
      getCurrentChapterIndex st' = JSNum.int 1 :=
  ⟨⟨by decide, by decide⟩,
    updateChapter_then_read_roundtrip sampleStory initialState 1 (by decide) (by decide)⟩

/-- C10: a persisted `chapterId` value `Number` cannot coerce makes
`getCurrentChapterIndex` return NaN; from such a state `setNextChapter` is a
no-op (`NaN + 1 < length` is false), `setPreviousChapter` delegates to
`resetToIntro` (`NaN - 1 >= 0` is false), and neither throws (both return
`some`). -/
theorem nan_param_navigation_safe (story : Story) (st : NavState) (s : String)
    (hs : st.chapterParam = some s) (hnan : jsNumberOfString s = JSNum.nan) :
    getCurrentChapterIndex st = JSNum.nan ∧
    setNextChapter story st = some st ∧
    setPreviousChapter story st = some (resetToIntro story st) := by
  have hidx : getCurrentChapterIndex st = JSNum.nan := by
    simp [getCurrentChapterIndex, hs, jsNumberOfParam, hnan]
  refine ⟨hidx, ?_, ?_⟩
  · simp [setNextChapter, hidx, JSNum.add, JSNum.lt, JSNum.int]
  · simp [setPreviousChapter, hidx, JSNum.sub, JSNum.ge, JSNum.int]

/-- Witness for C10 at the parameter value "banana". -/
theorem nan_param_navigation_safe_witness :
    (stateBadParam.chapterParam = some "banana" ∧
      jsNumberOfString "banana" = JSNum.nan) ∧
    getCurrentChapterIndex stateBadParam = JSNum.nan ∧
    setNextChapter sampleStory stateBadParam = some stateBadParam ∧
    setPreviousChapter sampleStory stateBadParam =
      some (resetToIntro sampleStory stateBadParam) :=
  ⟨⟨by decide, by decide⟩,
    nan_param_navigation_safe sampleStory stateBadParam "banana" (by decide) (by decide)⟩

/-- C3: `setNextChapter` at the last valid index is a no-op — the state
(including the persisted parameter, hence the derived index) is returned
unchanged and nothing is thrown; and whenever the incremented index passes the
`< story.chapters.length` guard it delegates to `updateChapter` on that
incremented index. -/
theorem setNextChapter_last_noop_else_delegates (story : Story) (st : NavState) :
    (getCurrentChapterIndex st = JSNum.int ((story.chapters.length : ℤ) - 1) →
      setNextChapter story st = some st) ∧
    (((getCurrentChapterIndex st).add (JSNum.int 1)).lt
        (JSNum.int (story.chapters.length : ℤ)) = true →
      setNextChapter story st =
        updateChapter story ((getCurrentChapterIndex st).add (JSNum.int 1)) st) := by
  constructor
  · intro h
    have hcond : ((getCurrentChapterIndex st).add (JSNum.int 1)).lt
        (JSNum.int (story.chapters.length : ℤ)) = false := by
      rw [h]
      simp only [JSNum.int, JSNum.add, JSNum.lt, decide_eq_false_iff_not]
      omega
    simp only [setNextChapter, hcond]
    simp
  · intro h
    simp only [setNextChapter, h, if_true]

/-- Witness for C3: in the three-chapter `sampleStory`, advancing at chapter 2
(the last) is a no-op, and advancing at chapter 0 delegates to
`updateChapter` on index 1. -/
theorem setNextChapter_last_noop_else_delegates_witness :
    (getCurrentChapterIndex stateAtChapter2 =
        JSNum.int ((sampleStory.chapters.length : ℤ) - 1) ∧
      setNextChapter sampleStory stateAtChapter2 = some stateAtChapter2) ∧
    (((getCurrentChapterIndex stateAtChapter0).add (JSNum.int 1)).lt
        (JSNum.int (sampleStory.chapters.length : ℤ)) = true ∧
      setNextChapter sampleStory stateAtChapter0 =
        updateChapter sampleStory
          ((getCurrentChapterIndex stateAtChapter0).add (JSNum.int 1))
          stateAtChapter0) :=
  ⟨⟨by decide,
      (setNextChapter_last_noop_else_delegates sampleStory stateAtChapter2).1 (by decide)⟩,
    ⟨by decide,
      (setNextChapter_last_noop_else_delegates sampleStory stateAtChapter0).2 (by decide)⟩⟩

/-- C4 counterexample: `setPreviousChapter` at chapter 0 does enter the intro
state (the persisted parameter is cleared), but the current index then
resolves to 0 — a valid chapter index, indistinguishable from chapter 0 — and
not to a distinguished "none". -/
theorem retreat_at_zero_index_resolves_to_zero :
    setPreviousChapter sampleStory stateAtChapter0 =
      some (resetToIntro sampleStory stateAtChapter0) ∧
    (resetToIntro sampleStory stateAtChapter0).chapterParam = none ∧
    getCurrentChapterIndex (resetToIntro sampleStory stateAtChapter0) =
      JSNum.int 0 ∧
    isValidChapterIndex sampleStory
      (getCurrentChapterIndex (resetToIntro sampleStory stateAtChapter0)) = true := by
  decide

/-- C4 amended: `setPreviousChapter` delegates to `updateChapter` on the
decremented index when that passes the `>= 0` guard, and to `resetToIntro`
otherwise — in particular from index 0 and from the intro state —
and `resetToIntro` clears the persisted parameter; the derived index of the
resulting intro state resolves to 0 (the codec has no distinguished "none"),
not to an out-of-store value. -/
theorem setPreviousChapter_delegation (story : Story) (st : NavState) :
    (((getCurrentChapterIndex st).sub (JSNum.int 1)).ge (JSNum.int 0) = true →
      setPreviousChapter story st =
        updateChapter story ((getCurrentChapterIndex st).sub (JSNum.int 1)) st) ∧
    (getCurrentChapterIndex st = JSNum.int 0 →
      setPreviousChapter story st = some (resetToIntro story st)) ∧
    (st.chapterParam = none →
      setPreviousChapter story st = some (resetToIntro story st)) ∧
    (resetToIntro story st).chapterParam = none ∧
    getCurrentChapterIndex (resetToIntro story st) = JSNum.int 0 := by
  have hzero : getCurrentChapterIndex st = JSNum.int 0 →
      setPreviousChapter story st = some (resetToIntro story st) := by
    intro h
    have hcond : ((getCurrentChapterIndex st).sub (JSNum.int 1)).ge
        (JSNum.int 0) = false := by
      rw [h]
      simp only [JSNum.int, JSNum.sub, JSNum.ge, decide_eq_false_iff_not]
      omega
    simp only [setPreviousChapter, hcond]
    simp
  refine ⟨?_, hzero, ?_, ?_, ?_⟩
  · intro h
    simp only [setPreviousChapter, h, if_true]
  · intro h
    exact hzero (by simp [getCurrentChapterIndex, h, jsNumberOfParam])
  · simp
  · show jsNumberOfParam (resetToIntro story st).chapterParam = JSNum.int 0
    rw [resetToIntro_chapterParam]
    rfl

/-- Witness for C4: in `sampleStory`, retreating from chapter 1 delegates to
`updateChapter` on index 0, and retreating from chapter 0 delegates to
`resetToIntro`. -/
theorem setPreviousChapter_delegation_witness :
    (((getCurrentChapterIndex stateAtChapter1).sub (JSNum.int 1)).ge
        (JSNum.int 0) = true ∧
      setPreviousChapter sampleStory stateAtChapter1 =
        updateChapter sampleStory
          ((getCurrentChapterIndex stateAtChapter1).sub (JSNum.int 1))
          stateAtChapter1) ∧
    (getCurrentChapterIndex stateAtChapter0 = JSNum.int 0 ∧
      setPreviousChapter sampleStory stateAtChapter0 =
        some (resetToIntro sampleStory stateAtChapter0)) :=
  ⟨⟨by decide,
      (setPreviousChapter_delegation sampleStory stateAtChapter1).1 (by decide)⟩,
    ⟨by decide,
      (setPreviousChapter_delegation sampleStory stateAtChapter0).2.1 (by decide)⟩⟩

/-- C9: with no parameter persisted (intro state), `getCurrentChapterIndex`
returns 0 — at this interface the intro state is indistinguishable from being
at chapter 0 — so a forward step from the intro navigates to chapter index 1
(persisting chapter 1's id), not to chapter 0. -/
theorem intro_reads_zero_and_forward_skips_chapter_zero (story : Story)
    (st : NavState) (h : st.chapterParam = none) :
    getCurrentChapterIndex st = JSNum.int 0 ∧
    ∀ (h1 : 1 < story.chapters.length),
      ∃ st', setNextChapter story st = some st' ∧
        st'.chapterParam = some (story.chapters.get ⟨1, h1⟩).id := by
  have hidx : getCurrentChapterIndex st = JSNum.int 0 := by
    simp [getCurrentChapterIndex, h, jsNumberOfParam]
  refine ⟨hidx, fun h1 => ?_⟩
  have hadd : (getCurrentChapterIndex st).add (JSNum.int 1) =
      JSNum.int ((1 : ℕ) : ℤ) := by
    rw [hidx]
    simp [JSNum.add, JSNum.int]
  have hlt : (JSNum.int ((1 : ℕ) : ℤ)).lt
      (JSNum.int (story.chapters.length : ℤ)) = true := by
    simp only [JSNum.lt, JSNum.int, decide_eq_true_eq]
    push_cast
    omega
  simp only [setNextChapter, hadd, hlt, if_true]
  obtain ⟨st', hst, hparam, -⟩ := updateChapter_some st (jsListAt_int h1)
  exact ⟨st', hst, hparam⟩

/-- Witness for C9 at `sampleStory` from the initial (intro) state. -/
theorem intro_reads_zero_and_forward_skips_chapter_zero_witness :
    initialState.chapterParam = none ∧
    getCurrentChapterIndex initialState = JSNum.int 0 ∧
    ∃ st', setNextChapter sampleStory initialState = some st' ∧
      st'.chapterParam = some (sampleStory.chapters.get ⟨1, by decide⟩).id :=
  ⟨by decide,
    (intro_reads_zero_and_forward_skips_chapter_zero sampleStory initialState
        (by decide)).1,
    (intro_reads_zero_and_forward_skips_chapter_zero sampleStory initialState
        (by decide)).2 (by decide)⟩

/-- C5: when an autoplay tick (`setNextAutoplayStep`) completes and the
resulting current chapter index is the last one, the timer handle is nulled
immediately, and a subsequent firing of the (now cancelled) interval performs
no further navigation — autoplay neither wraps to chapter 0 nor continues
past the end. -/
theorem autoplay_tick_stops_at_last (story : Story) (st st' : NavState)
    (h : setNextAutoplayStep story st = some st')
    (hlast : (getCurrentChapterIndex st').eqq
      (JSNum.int ((story.chapters.length : ℤ) - 1)) = true) :
    st'.intervalId = none ∧ autoplayTick story st' = some st' := by
  simp only [setNextAutoplayStep] at h
  rcases h1 : setNextChapter story st with _ | st1 <;> rw [h1] at h
  · simp at h
  · simp only [Option.bind_eq_bind, Option.some_bind] at h
    by_cases hc : (getCurrentChapterIndex st1).eqq
        (JSNum.int ((story.chapters.length : ℤ) - 1)) = true
    · rw [if_pos hc] at h
      simp only [pure, Option.some.injEq] at h
      subst h
      exact ⟨rfl, by simp [autoplayTick, stopAutoplay]⟩
    · rw [if_neg hc] at h
      simp only [pure, Option.some.injEq] at h
      subst h
      exact absurd hlast hc

/-- Witness for C5: a tick taken while playing at chapter 1 of the
three-chapter `sampleStory` lands on the last chapter and stops the timer. -/
theorem autoplay_tick_stops_at_last_witness :
    ((setNextAutoplayStep sampleStory statePlayingAt1).getD initialState).intervalId =
      none ∧
    autoplayTick sampleStory
        ((setNextAutoplayStep sampleStory statePlayingAt1).getD initialState) =
      some ((setNextAutoplayStep sampleStory statePlayingAt1).getD initialState) :=
  autoplay_tick_stops_at_last sampleStory statePlayingAt1 _ (by decide) (by decide)

/-- C6: every forward-button click and every back-button click that completes
leaves the timer handle null — whatever the prior autoplay state — so a
subsequent firing of the cancelled interval performs no further navigation. -/
theorem manual_click_stops_autoplay (story : Story) (st st' : NavState) :
    (forwardClick story st = some st' →
      st'.intervalId = none ∧ autoplayTick story st' = some st') ∧
    (backClick story st = some st' →
      st'.intervalId = none ∧ autoplayTick story st' = some st') := by
  constructor
  · intro h
    simp only [forwardClick] at h
    rcases h1 : setNextChapter story st with _ | st1 <;> rw [h1] at h
    · simp at h
    · simp only [Option.bind_eq_bind, Option.some_bind, pure,
        Option.some.injEq] at h
      subst h
      exact ⟨rfl, by simp [autoplayTick, stopAutoplay]⟩
  · intro h
    simp only [backClick] at h
    rcases h1 : setPreviousChapter story st with _ | st1 <;> rw [h1] at h
    · simp at h
    · simp only [Option.bind_eq_bind, Option.some_bind, pure,
        Option.some.injEq] at h
      subst h
      exact ⟨rfl, by simp [autoplayTick, stopAutoplay]⟩

/-- Witness for C6: a forward click while autoplay runs and a back click
while it is already stopped. -/
theorem manual_click_stops_autoplay_witness :
    (((forwardClick sampleStory statePlayingAt1).getD initialState).intervalId =
        none ∧
      autoplayTick sampleStory
          ((forwardClick sampleStory statePlayingAt1).getD initialState) =
        some ((forwardClick sampleStory statePlayingAt1).getD initialState)) ∧
    (((backClick sampleStory stateAtChapter1).getD initialState).intervalId =
        none ∧
      autoplayTick sampleStory
          ((backClick sampleStory stateAtChapter1).getD initialState) =
        some ((backClick sampleStory stateAtChapter1).getD initialState)) :=
  ⟨(manual_click_stops_autoplay sampleStory statePlayingAt1 _).1 (by decide),
    (manual_click_stops_autoplay sampleStory stateAtChapter1 _).2 (by decide)⟩

/-- C7: the autoplay toggle stops the timer (restoring the play icon) exactly
when the handle is set and only registers a new repeating
`TIME_PER_CHAPTER`-millisecond timer when the handle is null, and
`stopAutoplay` unconditionally nulls the handle and restores the play icon —
idempotent, hence safe when already stopped.  At most one live timer exists
because the single handle is nulled on every stop. -/
theorem autoplay_toggle_single_timer (st : NavState) :
    (st.intervalId.isSome = true → autoplayClickHandler st = stopAutoplay st) ∧
    (st.intervalId = none →
      autoplayClickHandler st =
        { st with intervalId := some TIME_PER_CHAPTER, autoplayIcon := Icon.pause }) ∧
    (stopAutoplay st).intervalId = none ∧
    (stopAutoplay st).autoplayIcon = Icon.play ∧
    stopAutoplay (stopAutoplay st) = stopAutoplay st := by
  refine ⟨?_, ?_, rfl, rfl, rfl⟩
  · intro h
    simp [autoplayClickHandler, h]
  · intro h
    simp [autoplayClickHandler, h]

/-- Witness for C7: toggling while playing stops; toggling from the initial
state starts the 3000 ms timer. -/
theorem autoplay_toggle_single_timer_witness :
    (statePlayingAt1.intervalId.isSome = true ∧
      autoplayClickHandler statePlayingAt1 = stopAutoplay statePlayingAt1) ∧
    (initialState.intervalId = none ∧
      autoplayClickHandler initialState =
        { initialState with
          intervalId := some TIME_PER_CHAPTER
          autoplayIcon := Icon.pause }) :=
  ⟨⟨by decide, (autoplay_toggle_single_timer statePlayingAt1).1 (by decide)⟩,
    ⟨by decide, (autoplay_toggle_single_timer initialState).2.1 (by decide)⟩⟩

/-- Rendering recomputes the forward-button state from a fresh parameter
read: after `updateChapterContent` the flag equals the strict-equality test
of the current index plus one against the chapter count. -/
theorem updateChapterContent_forwardDisabled (story : Story) (cd : ChapterData)
    (isIntro : Bool) (st : NavState) :
    (updateChapterContent story cd isIntro st).forwardDisabled =
      ((getCurrentChapterIndex st).add (JSNum.int 1)).eqq
        (JSNum.int (story.chapters.length : ℤ)) := by
  simp only [updateChapterContent, updateChapterIndexAndNavigation,
    getCurrentChapterIndex]
  simp

/-- C8: after every render (`updateChapterContent`, any content, any mode),
the forward control is disabled exactly when the freshly read current index
is the last chapter index `chapterCount - 1`, and enabled at every other
valid index. -/
theorem render_forward_disabled_iff_last (story : Story) (cd : ChapterData)
    (isIntro : Bool) (st : NavState) :
    ((updateChapterContent story cd isIntro st).forwardDisabled =
      ((getCurrentChapterIndex st).add (JSNum.int 1)).eqq
        (JSNum.int (story.chapters.length : ℤ))) ∧
    (∀ i : ℕ, i < story.chapters.length →
      getCurrentChapterIndex st = JSNum.int i →
      ((updateChapterContent story cd isIntro st).forwardDisabled = true ↔
        (i : ℤ) = (story.chapters.length : ℤ) - 1)) := by
  refine ⟨updateChapterContent_forwardDisabled story cd isIntro st, ?_⟩
  intro i hi hv
  rw [updateChapterContent_forwardDisabled, hv]
  simp only [JSNum.int, JSNum.add, JSNum.eqq, decide_eq_true_eq]
  omega

/-- Witness for C8: rendering at the last chapter of `sampleStory` disables
the forward control. -/
theorem render_forward_disabled_iff_last_witness :
    ((updateChapterContent sampleStory (ChapterData.props sampleProperties) true
        stateAtChapter2).forwardDisabled =
      ((getCurrentChapterIndex stateAtChapter2).add (JSNum.int 1)).eqq
        (JSNum.int (sampleStory.chapters.length : ℤ))) ∧
    (2 < sampleStory.chapters.length ∧
      getCurrentChapterIndex stateAtChapter2 = JSNum.int ((2 : ℕ) : ℤ) ∧
      ((updateChapterContent sampleStory (ChapterData.props sampleProperties) true
          stateAtChapter2).forwardDisabled = true ↔
        ((2 : ℕ) : ℤ) = (sampleStory.chapters.length : ℤ) - 1)) :=
  ⟨(render_forward_disabled_iff_last sampleStory (ChapterData.props sampleProperties)
      true stateAtChapter2).1,
    by decide, by decide,
    (render_forward_disabled_iff_last sampleStory (ChapterData.props sampleProperties)
      true stateAtChapter2).2 2 (by decide) (by decide)⟩

end ChapterNav
